import Mathlib

/-! ## Verification of the audio-analyzer core (`src/audio_analyzer.py`).

Shallow embedding of `AudioAnalyzer` over the rationals.  The numeric
front-end quantities that the Python code obtains from `numpy`'s FFT and
from the wall clock — the magnitude spectrum `|rfft(hann·chunk, fft_size)|`,
the chunk RMS `sqrt(mean(samples**2))`, the value of `time.time()`, and the
result of the (sqrt-normalised) `_autocorrelation_bpm` helper — are supplied
as explicit per-call inputs of the step function (`ChunkData`), since they
involve irrational operations.  All control flow, state threading, band
arithmetic, normalisation, thresholds, beat/BPM logic and the error path are
embedded exactly as written in the source.  `time.time()` is read twice per
call in the source (once in `_detect_onset`, once in the beat branch); both
reads happen inside the same invocation and are modelled by the single
per-call input `now`.
-/

namespace AudioViz

/-- Configuration surface of the analyzer: the constructor arguments of
`AudioAnalyzer.__init__` plus the fields it reads from `config.py`
(`AudioConfig`, `BPMConfig`, `FrequencyBands`). -/
structure Cfg where
  sampleRate : ℚ
  hopSize : ℕ
  bufferSize : ℕ
  fftSize : ℕ
  targetRms : ℚ
  autocorrInterval : ℕ
  minBpm : ℚ
  maxBpm : ℚ
  minBeatInterval : ℚ
  beatHistorySize : ℕ
  bpmHistorySize : ℕ
  subBassRange : ℚ × ℚ
  bassRange : ℚ × ℚ
  lowMidRange : ℚ × ℚ
  midRange : ℚ × ℚ
  highMidRange : ℚ × ℚ
  trebleRange : ℚ × ℚ
  highTrebleRange : ℚ × ℚ
deriving DecidableEq

/-- The default configuration: `AudioAnalyzer()` with the defaults of
`config.py` (constructor defaults `sample_rate=44100, hop_size=512,
buffer_size=1024`; `fft_size=2048`; BPM and band defaults from
`BPMConfig` / `FrequencyBands`). -/
def defaultCfg : Cfg where
  sampleRate := 44100
  hopSize := 512
  bufferSize := 1024
  fftSize := 2048
  targetRms := 3/10
  autocorrInterval := 5
  minBpm := 60
  maxBpm := 200
  minBeatInterval := 1/4
  beatHistorySize := 20
  bpmHistorySize := 10
  subBassRange := (20, 60)
  bassRange := (60, 250)
  lowMidRange := (250, 500)
  midRange := (500, 2000)
  highMidRange := (2000, 4000)
  trebleRange := (4000, 10000)
  highTrebleRange := (10000, 20000)

/-- A small but fully realizable configuration, used for concrete runs:
`AudioAnalyzer(sample_rate=1600, hop_size=8, buffer_size=16, config)` with
`config.audio.fft_size = 16` and all BPM/band settings at their defaults.
The FFT then has `16/2 + 1 = 9` bins at frequencies `0, 100, ..., 800` Hz. -/
def smallCfg : Cfg := { defaultCfg with
  sampleRate := 1600, hopSize := 8, bufferSize := 16, fftSize := 16 }

/-- Embedding of `collections.deque(maxlen=n)`: appending to a full deque evicts from the
left. -/
def dequeAppend {α : Type} (maxlen : ℕ) (xs : List α) (x : α) : List α :=
  let ys := xs ++ [x]
  if maxlen < ys.length then ys.drop (ys.length - maxlen) else ys

/-- Embedding of `np.mean` on a list of rationals (the embedding never applies it to an
empty list on a reachable path; `List.sum [] / 0 = 0` in Lean). -/
def listMean (xs : List ℚ) : ℚ := xs.sum / xs.length

/-- Embedding of `np.median`: sort, middle element for odd length, average of the two
middle elements for even length. -/
def listMedian (xs : List ℚ) : ℚ :=
  let s := xs.insertionSort (· ≤ ·)
  if s.length % 2 = 1 then s.getD (s.length / 2) 0
  else (s.getD (s.length / 2 - 1) 0 + s.getD (s.length / 2) 0) / 2

/-- Embedding of `np.clip(x, lo, hi)` = `min(max(x, lo), hi)`. -/
def npClip (x lo hi : ℚ) : ℚ := min (max x lo) hi

/-- Embedding of `np.max` of a nonempty array (`0` as the value on the unreachable empty
case). -/
def listMax : List ℚ → ℚ
  | [] => 0
  | x :: xs => xs.foldl max x

/-- Embedding of `list[-n:]`: the last `n` elements. -/
def lastN {α : Type} (n : ℕ) (xs : List α) : List α := xs.drop (xs.length - n)

/-- Embedding of `np.fft.rfftfreq(fft_size, 1/sample_rate)`: bin `k` has centre frequency
`k * sample_rate / fft_size`, for `k = 0 .. fft_size/2`. -/
def rfftfreqs (cfg : Cfg) : List ℚ :=
  (List.range (cfg.fftSize / 2 + 1)).map (fun k => k * cfg.sampleRate / cfg.fftSize)

/-- Embedding of `AudioAnalyzer._get_band_energy`: sum of the magnitude bins whose centre
frequency lies in the inclusive range. -/
def get_band_energy (magnitude freqs : List ℚ) (freqRange : ℚ × ℚ) : ℚ :=
  (((freqs.zip magnitude).filter
      (fun p => decide (freqRange.1 ≤ p.1 ∧ p.1 ≤ freqRange.2))).map Prod.snd).sum

/-- Spectral flux as computed in `process_audio` (lines 208–214), which is
the same computation as `AdvancedAudioAnalyzer.spectral_flux`: sum of the
positive bin-wise magnitude increases, `0` with no previous spectrum or on a
length mismatch. -/
def spectral_flux (prevMagnitude : Option (List ℚ)) (magnitude : List ℚ) : ℚ :=
  match prevMagnitude with
  | none => 0
  | some prev =>
    if prev.length = magnitude.length then
      (List.zipWith (fun m p => max (m - p) 0) magnitude prev).sum
    else 0

/-- Embedding of `AudioAnalyzer._calculate_spectral_centroid`. -/
def spectral_centroid (magnitude freqs : List ℚ) : ℚ :=
  if magnitude.sum = 0 then 0
  else (List.zipWith (· * ·) freqs magnitude).sum / magnitude.sum

/-- The mutable state of an `AudioAnalyzer` instance. -/
structure AnalyzerState where
  beatTimes : List ℚ
  currentBpm : ℚ
  lastBeatTime : Option ℚ
  audioBuffer : List ℚ
  prevMagnitude : Option (List ℚ)
  prevSamples : Option (List ℚ)
  bpmHistory : List ℚ
  autocorrFrameCount : ℕ
  peakLevel : ℚ
  rmsLevel : ℚ
  volumeGain : ℚ
  spectrumBuffer : List (List ℚ)
deriving DecidableEq

/-- The state set up by `AudioAnalyzer.__init__`. -/
def initState : AnalyzerState where
  beatTimes := []
  currentBpm := 0
  lastBeatTime := none
  audioBuffer := []
  prevMagnitude := none
  prevSamples := none
  bpmHistory := []
  autocorrFrameCount := 0
  peakLevel := 0
  rmsLevel := 0
  volumeGain := 1
  spectrumBuffer := []

/-- Embedding of `AudioAnalyzer._detect_onset`: bass-weighted-energy onset detector with
refractory gating.  Returns the onset flag together with the updated state
(the weighted energy is appended to `audio_buffer` exactly when no onset
fires; `last_beat_time` is set exactly when one does). -/
def detect_onset (cfg : Cfg) (st : AnalyzerState) (samples : List ℚ)
    (bassEnergy now : ℚ) : Bool × AnalyzerState :=
  let totalEnergy := (samples.map (fun s => s ^ 2)).sum
  let weightedEnergy := totalEnergy * (3/10) + bassEnergy * (7/10)
  let blocked : Bool :=
    match st.lastBeatTime with
    | some t => decide (now - t < cfg.minBeatInterval)
    | none => false
  if blocked then
    (false, { st with audioBuffer := dequeAppend 2048 st.audioBuffer weightedEnergy })
  else if 10 < st.audioBuffer.length then
    let recentEnergy := listMean (lastN 10 st.audioBuffer)
    let threshold := recentEnergy * 2
    let minThreshold := max (5/1000) (recentEnergy * (3/2))
    if threshold < weightedEnergy ∧ minThreshold < weightedEnergy then
      (true, { st with lastBeatTime := some now })
    else
      (false, { st with audioBuffer := dequeAppend 2048 st.audioBuffer weightedEnergy })
  else
    (false, { st with audioBuffer := dequeAppend 2048 st.audioBuffer weightedEnergy })

/-- The beat-timestamp history right after the current beat is appended
(line 235). -/
def beatTimesAfter (cfg : Cfg) (st : AnalyzerState) (now : ℚ) : List ℚ :=
  dequeAppend cfg.beatHistorySize st.beatTimes now

/-- Embedding of `intervals` of line 239: `np.diff` of the beat timestamps. -/
def intervalsAfter (cfg : Cfg) (st : AnalyzerState) (now : ℚ) : List ℚ :=
  List.zipWith (· - ·) ((beatTimesAfter cfg st now).drop 1) (beatTimesAfter cfg st now)

/-- Embedding of `filtered_intervals` of line 243: intervals within `[0.3, 3.0]` s. -/
def filteredIntervalsAfter (cfg : Cfg) (st : AnalyzerState) (now : ℚ) : List ℚ :=
  (intervalsAfter cfg st now).filter (fun x => decide ((3/10 : ℚ) ≤ x ∧ x ≤ 3))

/-- The clamped interval-based tempo candidate of lines 248–250:
`clip(60 / mean(filtered_intervals), min_bpm, max_bpm)`. -/
def intervalEstimateAfter (cfg : Cfg) (st : AnalyzerState) (now : ℚ) : ℚ :=
  npClip (60 / listMean (filteredIntervalsAfter cfg st now)) cfg.minBpm cfg.maxBpm

/-- Embedding of `calculated_bpm` after the throttled autocorrelation blend of lines
252–259: when the incremented frame counter reaches the interval and the
autocorrelation estimate is valid (`> 0`), blend 70 % interval-based with
30 % autocorrelation-based. -/
def tempoCandidate (cfg : Cfg) (st : AnalyzerState) (now ac : ℚ) : ℚ :=
  if cfg.autocorrInterval ≤ st.autocorrFrameCount + 1 then
    if 0 < ac then (7/10) * intervalEstimateAfter cfg st now + (3/10) * ac
    else intervalEstimateAfter cfg st now
  else intervalEstimateAfter cfg st now

/-- Embedding of `autocorr_frame_count` after lines 253–259: incremented per qualifying
beat, reset to `0` when it reaches the configured interval. -/
def nextAutocorrCount (cfg : Cfg) (st : AnalyzerState) : ℕ :=
  if cfg.autocorrInterval ≤ st.autocorrFrameCount + 1 then 0
  else st.autocorrFrameCount + 1

/-- The beat branch of `process_audio` (lines 233–272): append the beat
timestamp, then update BPM from inter-beat intervals, with outlier
filtering, the throttled autocorrelation blend, and the moving-average
smoothing; `ac` is the value `_autocorrelation_bpm(samples)` would
return (consulted only on the throttled path). -/
def bpm_beat_update (cfg : Cfg) (st : AnalyzerState) (now ac : ℚ) :
    AnalyzerState :=
  if 2 ≤ (beatTimesAfter cfg st now).length then
    if 0 < (intervalsAfter cfg st now).length then
      if 0 < (filteredIntervalsAfter cfg st now).length then
        if 0 < listMean (filteredIntervalsAfter cfg st now) then
          let calculated := tempoCandidate cfg st now ac
          let history := dequeAppend cfg.bpmHistorySize st.bpmHistory calculated
          { st with beatTimes := beatTimesAfter cfg st now,
                    autocorrFrameCount := nextAutocorrCount cfg st,
                    bpmHistory := history,
                    currentBpm := if 3 ≤ history.length then listMean history
                                  else calculated }
        else { st with beatTimes := beatTimesAfter cfg st now }
      else
        if (3/10 : ℚ) ≤ listMedian (intervalsAfter cfg st now) ∧
            listMedian (intervalsAfter cfg st now) ≤ 3 then
          { st with beatTimes := beatTimesAfter cfg st now,
                    currentBpm := npClip (60 / listMedian (intervalsAfter cfg st now))
                      cfg.minBpm cfg.maxBpm }
        else { st with beatTimes := beatTimesAfter cfg st now }
    else { st with beatTimes := beatTimesAfter cfg st now }
  else { st with beatTimes := beatTimesAfter cfg st now }

/-- The per-call inputs of `process_audio` for a valid (nonempty, numeric)
chunk.  `samples` is the converted float array; `magnitude` is
`np.abs(np.fft.rfft(hann(buffer) * buffer, n=fft_size))` (entries are
non-negative by construction, length `fft_size/2 + 1`); `rms` is
`sqrt(mean(samples**2))` after padding (non-negative by construction);
`now` is the value of `time.time()` during the call; `autocorrBpm` is what
`_autocorrelation_bpm(samples)` returns (by its final clamp, either `0` or a
value in `[min_bpm, max_bpm]`); `featureErr` tells whether the
`try` block of lines 275–356 raises (the fault is modelled at the entry of
the `try` block). -/
structure ChunkData where
  samples : List ℚ
  magnitude : List ℚ
  rms : ℚ
  now : ℚ
  autocorrBpm : ℚ
  featureErr : Bool
deriving DecidableEq

/-- The argument of `process_audio`: `None`, an empty array, a nonempty
array that `np.asarray(·, dtype=np.float32)` rejects, or a valid chunk. -/
inductive Chunk where
  | null : Chunk
  | empty : Chunk
  | malformed : Chunk
  | valid : ChunkData → Chunk

/-- The `band_energies` dictionary: one entry per named band. -/
structure BandEnergies where
  subBass : ℚ
  bass : ℚ
  lowMid : ℚ
  mid : ℚ
  highMid : ℚ
  treble : ℚ
  highTreble : ℚ
deriving DecidableEq

/-- The features dictionary returned by `process_audio`. -/
structure Features where
  bass : ℚ
  mid : ℚ
  treble : ℚ
  totalEnergy : ℚ
  spectralCentroid : ℚ
  spectralFlux : ℚ
  bandEnergies : BandEnergies
  spectrum : List ℚ
  rms : ℚ
  peak : ℚ
  volumeGain : ℚ
deriving DecidableEq

/-- Embedding of `AudioAnalyzer._get_default_features`. -/
def default_features : Features where
  bass := 0
  mid := 0
  treble := 0
  totalEnergy := 0
  spectralCentroid := 0
  spectralFlux := 0
  bandEnergies := ⟨0, 0, 0, 0, 0, 0, 0⟩
  spectrum := []
  rms := 0
  peak := 0
  volumeGain := 1

/-- Lines 183–185: right-pad the chunk with zeros to `hop_size` when
shorter. -/
def paddedSamples (cfg : Cfg) (d : ChunkData) : List ℚ :=
  if d.samples.length < cfg.hopSize then
    d.samples ++ List.replicate (cfg.hopSize - d.samples.length) 0
  else d.samples

/-- Embedding of `bass_energy` of line 221. -/
def bassEnergyOf (cfg : Cfg) (d : ChunkData) : ℚ :=
  get_band_energy d.magnitude (rfftfreqs cfg) cfg.bassRange

/-- Embedding of `spectral_flux` of lines 208–214, from the previous stored spectrum. -/
def fluxOf (st : AnalyzerState) (d : ChunkData) : ℚ :=
  spectral_flux st.prevMagnitude d.magnitude

/-- Lines 216–224: store the new spectrum and samples, then run
`_detect_onset` on the first `hop_size` samples. -/
def onsetStep (cfg : Cfg) (st : AnalyzerState) (d : ChunkData) :
    Bool × AnalyzerState :=
  detect_onset cfg
    { st with prevMagnitude := some d.magnitude,
              prevSamples := some (paddedSamples cfg d) }
    ((paddedSamples cfg d).take cfg.hopSize) (bassEnergyOf cfg d) d.now

/-- Lines 226–231: `is_beat = energy_onset or (flux_onset and
bass_energy > 0.01)` where `flux_onset` compares the flux with half the
mean magnitude. -/
def isBeatOf (cfg : Cfg) (st : AnalyzerState) (d : ChunkData) : Bool :=
  (onsetStep cfg st d).1 ||
    (decide (listMean d.magnitude * (1/2) < fluxOf st d) &&
     decide ((1/100 : ℚ) < bassEnergyOf cfg d))

/-- The state after lines 216–272: spectrum/sample storage, onset
detection, and the beat branch when a beat fired. -/
def preTryState (cfg : Cfg) (st : AnalyzerState) (d : ChunkData) :
    AnalyzerState :=
  if isBeatOf cfg st d then
    bpm_beat_update cfg (onsetStep cfg st d).2 d.now d.autocorrBpm
  else (onsetStep cfg st d).2

/-- Lines 279–291: exponential smoothing of RMS and peak, then the
auto-gain update gated on the smoothed RMS exceeding `0.01`. -/
def updateLevels (cfg : Cfg) (st : AnalyzerState) (d : ChunkData) :
    AnalyzerState :=
  let peak := listMax ((paddedSamples cfg d).map abs)
  let st := { st with rmsLevel := (9/10) * st.rmsLevel + (1/10) * d.rms,
                      peakLevel := (9/10) * st.peakLevel + (1/10) * peak }
  if (1/100 : ℚ) < st.rmsLevel then
    let targetGain := cfg.targetRms / st.rmsLevel
    let vg := (19/20) * st.volumeGain + (1/20) * targetGain
    { st with volumeGain := min 2 (max (1/10) vg) }
  else st

/-- Embedding of `magnitude[::2]`. -/
def strideTwo : List ℚ → List ℚ
  | [] => []
  | [a] => [a]
  | a :: _ :: rest => a :: strideTwo rest

/-- Lines 299–307: the downsampled spectrum stored for the analyzer view;
`np.linspace(0, n-1, 512, dtype=int)` picks index `⌊i·(n-1)/511⌋` for
`i = 0..511`. -/
def spectrumDataOf (d : ChunkData) : List ℚ :=
  if 512 < d.magnitude.length then
    (List.range 512).map (fun i => d.magnitude.getD (i * (d.magnitude.length - 1) / 511) 0)
  else strideTwo d.magnitude

/-- Lines 315–324: the raw per-band energies. -/
def rawBandEnergies (cfg : Cfg) (d : ChunkData) : BandEnergies :=
  let freqs := rfftfreqs cfg
  { subBass := get_band_energy d.magnitude freqs cfg.subBassRange
    bass := get_band_energy d.magnitude freqs cfg.bassRange
    lowMid := get_band_energy d.magnitude freqs cfg.lowMidRange
    mid := get_band_energy d.magnitude freqs cfg.midRange
    highMid := get_band_energy d.magnitude freqs cfg.highMidRange
    treble := get_band_energy d.magnitude freqs cfg.trebleRange
    highTreble := get_band_energy d.magnitude freqs cfg.highTrebleRange }

/-- Embedding of `max(raw_band_energies.values())`. -/
def maxBandEnergy (raw : BandEnergies) : ℚ :=
  max raw.subBass (max raw.bass (max raw.lowMid (max raw.mid
    (max raw.highMid (max raw.treble raw.highTreble)))))

/-- Lines 326–334: normalize the band energies relative to the maximum band
energy of the current chunk (all zero when that maximum is not positive). -/
def normalizeBandEnergies (raw : BandEnergies) : BandEnergies :=
  let m := maxBandEnergy raw
  if 0 < m then
    { subBass := raw.subBass / m, bass := raw.bass / m, lowMid := raw.lowMid / m,
      mid := raw.mid / m, highMid := raw.highMid / m, treble := raw.treble / m,
      highTreble := raw.highTreble / m }
  else ⟨0, 0, 0, 0, 0, 0, 0⟩

/-- Embedding of `total_energy` of line 310: the sum of the bass, mid and treble band
energies (the denominator of the coarse-band normalization). -/
def coarseTotalEnergy (cfg : Cfg) (d : ChunkData) : ℚ :=
  let freqs := rfftfreqs cfg
  get_band_energy d.magnitude freqs cfg.bassRange +
    get_band_energy d.magnitude freqs cfg.midRange +
    get_band_energy d.magnitude freqs cfg.trebleRange

/-- Lines 336–351: the features dictionary assembled on the success path,
given the post-update state `st` (levels and spectrum buffer already
updated). -/
def featuresOf (cfg : Cfg) (st0 st : AnalyzerState) (d : ChunkData) : Features :=
  let freqs := rfftfreqs cfg
  let total := coarseTotalEnergy cfg d
  let bassEnergy := get_band_energy d.magnitude freqs cfg.bassRange
  let midEnergy := get_band_energy d.magnitude freqs cfg.midRange
  let trebleEnergy := get_band_energy d.magnitude freqs cfg.trebleRange
  { bass := if 0 < total then bassEnergy / total else 0
    mid := if 0 < total then midEnergy / total else 0
    treble := if 0 < total then trebleEnergy / total else 0
    totalEnergy := listMean d.magnitude
    spectralCentroid := spectral_centroid d.magnitude freqs
    spectralFlux := fluxOf st0 d
    bandEnergies := normalizeBandEnergies (rawBandEnergies cfg d)
    spectrum := spectrumDataOf d
    rms := st.rmsLevel
    peak := st.peakLevel
    volumeGain := st.volumeGain }

/-- The full result of `process_audio` on a valid chunk: the pre-`try`
phase (lines 208–272), then either the error path (lines 352–356, modelled
by `featureErr`) or the success path (lines 274–358) with level updates,
spectrum-buffer append and feature assembly. -/
def validStep (cfg : Cfg) (st : AnalyzerState) (d : ChunkData) :
    Bool × ℚ × Features × AnalyzerState :=
  let st3 := preTryState cfg st d
  if d.featureErr then (false, st3.currentBpm, default_features, st3)
  else
    let st4 := updateLevels cfg st3 d
    let st5 := { st4 with
      spectrumBuffer := dequeAppend 100 st4.spectrumBuffer (spectrumDataOf d) }
    (isBeatOf cfg st d, st5.currentBpm, featuresOf cfg st st5 d, st5)

/-- Embedding of `AudioAnalyzer.process_audio` (lines 174–358): reject `None`/empty
input with the default bundle and no state change; raise `ValueError` on a
chunk the float conversion rejects; otherwise run the full pipeline. -/
def process_audio (cfg : Cfg) (st : AnalyzerState) (chunk : Chunk) :
    Except String (Bool × ℚ × Features × AnalyzerState) :=
  match chunk with
  | .null => .ok (false, st.currentBpm, default_features, st)
  | .empty => .ok (false, st.currentBpm, default_features, st)
  | .malformed => .error "Invalid audio samples"
  | .valid d => .ok (validStep cfg st d)

/-- Embedding of `AudioAnalyzer.reset` (lines 462–471). -/
def reset (st : AnalyzerState) : AnalyzerState :=
  { st with beatTimes := [], currentBpm := 0, lastBeatTime := none,
            bpmHistory := [], peakLevel := 0, rmsLevel := 0, volumeGain := 1,
            spectrumBuffer := [] }

/-- Embedding of `AudioAnalyzer.get_bpm`. -/
def get_bpm (st : AnalyzerState) : ℚ := st.currentBpm

/-- The beat flag of a `process_audio` result (for stating theorems). -/
def resBeat (r : Except String (Bool × ℚ × Features × AnalyzerState)) : Bool :=
  match r with
  | .ok (b, _, _, _) => b
  | .error _ => false

/-- The published BPM of a `process_audio` result (for stating theorems;
on the raising path the analyzer's BPM is `fallback.currentBpm`, unchanged). -/
def resBpm (fallback : AnalyzerState)
    (r : Except String (Bool × ℚ × Features × AnalyzerState)) : ℚ :=
  match r with
  | .ok (_, bpm, _, _) => bpm
  | .error _ => fallback.currentBpm

/-- The features of a `process_audio` result (for stating theorems). -/
def resFeatures (r : Except String (Bool × ℚ × Features × AnalyzerState)) :
    Features :=
  match r with
  | .ok (_, _, f, _) => f
  | .error _ => default_features

/-- The analyzer state after a `process_audio` call (for stating theorems;
a raising call leaves the state at `fallback`, the pre-call state, since
the `ValueError` is raised before any mutation). -/
def resState (fallback : AnalyzerState)
    (r : Except String (Bool × ℚ × Features × AnalyzerState)) : AnalyzerState :=
  match r with
  | .ok (_, _, _, s) => s
  | .error _ => fallback

/-! ### Spec-side model for the C1 refinement comparison -/

/-- Modelled from the spec: the per-band running maximum — "each band's own
running maximum (decayed at 0.9995 per chunk if not exceeded)".  This state
does not exist in the code; it is defined here only to compare the spec's
normalization rule with the code's. -/
def specRunningMax (decay m raw : ℚ) : ℚ := if m < raw then raw else m * decay

/-- Modelled from the spec: update all seven per-band running maxima for one
chunk. -/
def specBandMaxUpdate (decay : ℚ) (maxes raw : BandEnergies) : BandEnergies where
  subBass := specRunningMax decay maxes.subBass raw.subBass
  bass := specRunningMax decay maxes.bass raw.bass
  lowMid := specRunningMax decay maxes.lowMid raw.lowMid
  mid := specRunningMax decay maxes.mid raw.mid
  highMid := specRunningMax decay maxes.highMid raw.highMid
  treble := specRunningMax decay maxes.treble raw.treble
  highTreble := specRunningMax decay maxes.highTreble raw.highTreble

/-- Modelled from the spec: the published band energies under the spec's
rule — each band's raw energy "normalized to [0,1] relative to the band's
own running max" (zero while the running maximum is zero). -/
def specBandNorm (decay : ℚ) (maxes raw : BandEnergies) : BandEnergies :=
  let m := specBandMaxUpdate decay maxes raw
  { subBass := if 0 < m.subBass then raw.subBass / m.subBass else 0
    bass := if 0 < m.bass then raw.bass / m.bass else 0
    lowMid := if 0 < m.lowMid then raw.lowMid / m.lowMid else 0
    mid := if 0 < m.mid then raw.mid / m.mid else 0
    highMid := if 0 < m.highMid then raw.highMid / m.highMid else 0
    treble := if 0 < m.treble then raw.treble / m.treble else 0
    highTreble := if 0 < m.highTreble then raw.highTreble / m.highTreble else 0 }

/-- Modelled from the spec: all running maxima start at zero on a fresh
analyzer. -/
def specInitMaxes : BandEnergies := ⟨0, 0, 0, 0, 0, 0, 0⟩

/-! ### Predicates and helper views used in theorem statements -/

/-- The BPM bookkeeping invariant: every raw estimate in the smoothing
history is in `[min_bpm, max_bpm]`, and the published BPM is either `0`
(no estimate yet) or in `[min_bpm, max_bpm]`. -/
def BpmInv (cfg : Cfg) (st : AnalyzerState) : Prop :=
  (∀ x ∈ st.bpmHistory, cfg.minBpm ≤ x ∧ x ≤ cfg.maxBpm) ∧
    (st.currentBpm = 0 ∨ (cfg.minBpm ≤ st.currentBpm ∧ st.currentBpm ≤ cfg.maxBpm))

/-- The contract `_autocorrelation_bpm` satisfies by construction (its
return value is either `0` or clamped into `[min_bpm, max_bpm]`,
lines 450–456), imposed on the oracle input of a valid chunk. -/
def AutocorrContract (cfg : Cfg) : Chunk → Prop
  | .valid d => d.autocorrBpm = 0 ∨ (cfg.minBpm ≤ d.autocorrBpm ∧ d.autocorrBpm ≤ cfg.maxBpm)
  | _ => True

/-- Whether a beat fires internally during the call (equal to the returned
`is_beat` flag on every non-raising, non-error path). -/
def firedBeat (cfg : Cfg) (st : AnalyzerState) : Chunk → Bool
  | .valid d => isBeatOf cfg st d
  | _ => false

/-- Magnitude entries are non-negative — true of every real input, since the
magnitude is `np.abs` of an FFT. -/
def MagNonneg : Chunk → Prop
  | .valid d => ∀ x ∈ d.magnitude, 0 ≤ x
  | _ => True

/-! ### Concrete scenario inputs (all runnable under `smallCfg`) -/

/-- A silent chunk at time `t` with autocorrelation oracle `a`: eight zero
samples, all nine magnitude bins zero. -/
def zChunk (t a : ℚ) : ChunkData :=
  ⟨List.replicate 8 0, List.replicate 9 0, 0, t, a, false⟩

/-- A chunk whose nine magnitude bins are all `1`, at time `t`. -/
def onesChunk (t : ℚ) : ChunkData :=
  ⟨List.replicate 8 0, List.replicate 9 1, 0, t, 0, false⟩

/-- A chunk whose nine magnitude bins are all `2`, at time `t`; `err` tells
whether feature assembly raises on this call. -/
def twosChunk (t : ℚ) (err : Bool) : ChunkData :=
  ⟨List.replicate 8 0, List.replicate 9 2, 0, t, 0, err⟩

/-- The features of a silent chunk under `smallCfg`. -/
def zfeatures : Features :=
  ⟨0, 0, 0, 0, 0, 0, ⟨0, 0, 0, 0, 0, 0, 0⟩, List.replicate 5 0, 0, 0, 1⟩

/-- The analyzer state after `k` silent chunks under `smallCfg`
(for small `k`). -/
def zstate (k : ℕ) : AnalyzerState :=
  ⟨[], 0, none, List.replicate k 0, some (List.replicate 9 0),
    some (List.replicate 8 0), [], 0, 0, 0, 1,
    List.replicate k (List.replicate 5 0)⟩

/-- State after the two-call prefix: a silent chunk at `t = 0`, then an
all-ones chunk at `t = 100` (which fires a flux beat).  Used by the C2 and
C9 runs. -/
def stB : AnalyzerState :=
  ⟨[100], 0, none, [0, 7/5], some (List.replicate 9 1),
    some (List.replicate 8 0), [], 0, 0, 0, 1,
    [List.replicate 5 0, List.replicate 5 1]⟩

/-- State after the C2 run's third call (all-twos chunk at `t = 100.1`,
a second flux beat inside the refractory interval). -/
def stC2 : AnalyzerState :=
  ⟨[100, 1001/10], 0, none, [0, 7/5, 14/5], some (List.replicate 9 2),
    some (List.replicate 8 0), [], 0, 0, 0, 1,
    [List.replicate 5 0, List.replicate 5 1, List.replicate 5 2]⟩

/-- The chunk of the C1 counterexample: bass band energy `2` (bin 1,
100 Hz), low-mid/mid band energy `1` (bin 5, 500 Hz). -/
def c1chunk : ChunkData :=
  ⟨List.replicate 8 0, [0, 2, 0, 0, 0, 1, 0, 0, 0], 0, 0, 0, false⟩

/-- A concrete mid-stream analyzer state with nonempty rolling state, used
by the reset counterexample. -/
def c3state : AnalyzerState :=
  ⟨[5], 120, some 5, [1, 2], some [3], some [4], [120], 2, 1, 1, 3/2, [[1]]⟩

/-- A state four qualifying beats in (counter at 4), one beat away from the
throttled autocorrelation refinement under the default interval 5. -/
def c6wState : AnalyzerState :=
  ⟨[0, 1, 2, 3], 0, none, [], none, none, [], 4, 0, 0, 1, []⟩

/-- A state whose energy detector fired at `t = 100` (refractory gate armed),
with a previous all-zero spectrum stored. -/
def c2wState : AnalyzerState :=
  ⟨[100], 0, some 100, [], some (List.replicate 9 0), none, [], 0, 0, 0, 1, []⟩

/-- A silent chunk on which feature assembly raises. -/
def errChunk : ChunkData :=
  ⟨List.replicate 8 0, List.replicate 9 0, 0, 0, 0, true⟩

/-! ### Evaluation lemmas

Projection lemmas for the concrete configuration and the initial state,
so that concrete runs can be evaluated by `simp`/`norm_num` without
unfolding the structure literals wholesale. -/

@[simp] lemma smallCfg_sampleRate : smallCfg.sampleRate = 1600 := rfl

@[simp] lemma smallCfg_hopSize : smallCfg.hopSize = 8 := rfl

@[simp] lemma smallCfg_bufferSize : smallCfg.bufferSize = 16 := rfl

@[simp] lemma smallCfg_fftSize : smallCfg.fftSize = 16 := rfl

@[simp] lemma smallCfg_targetRms : smallCfg.targetRms = 3/10 := rfl

@[simp] lemma smallCfg_autocorrInterval : smallCfg.autocorrInterval = 5 := rfl

@[simp] lemma smallCfg_minBpm : smallCfg.minBpm = 60 := rfl

@[simp] lemma smallCfg_maxBpm : smallCfg.maxBpm = 200 := rfl

@[simp] lemma smallCfg_minBeatInterval : smallCfg.minBeatInterval = 1/4 := rfl

@[simp] lemma smallCfg_beatHistorySize : smallCfg.beatHistorySize = 20 := rfl

@[simp] lemma smallCfg_bpmHistorySize : smallCfg.bpmHistorySize = 10 := rfl

@[simp] lemma smallCfg_subBassRange : smallCfg.subBassRange = (20, 60) := rfl

@[simp] lemma smallCfg_bassRange : smallCfg.bassRange = (60, 250) := rfl

@[simp] lemma smallCfg_lowMidRange : smallCfg.lowMidRange = (250, 500) := rfl

@[simp] lemma smallCfg_midRange : smallCfg.midRange = (500, 2000) := rfl

@[simp] lemma smallCfg_highMidRange : smallCfg.highMidRange = (2000, 4000) := rfl

@[simp] lemma smallCfg_trebleRange : smallCfg.trebleRange = (4000, 10000) := rfl

@[simp] lemma smallCfg_highTrebleRange : smallCfg.highTrebleRange = (10000, 20000) := rfl

@[simp] lemma initState_beatTimes : initState.beatTimes = [] := rfl

@[simp] lemma initState_currentBpm : initState.currentBpm = 0 := rfl

@[simp] lemma initState_lastBeatTime : initState.lastBeatTime = none := rfl

@[simp] lemma initState_audioBuffer : initState.audioBuffer = [] := rfl

@[simp] lemma initState_prevMagnitude : initState.prevMagnitude = none := rfl

@[simp] lemma initState_prevSamples : initState.prevSamples = none := rfl

@[simp] lemma initState_bpmHistory : initState.bpmHistory = [] := rfl

@[simp] lemma initState_autocorrFrameCount : initState.autocorrFrameCount = 0 := rfl

@[simp] lemma initState_peakLevel : initState.peakLevel = 0 := rfl

@[simp] lemma initState_rmsLevel : initState.rmsLevel = 0 := rfl

@[simp] lemma initState_volumeGain : initState.volumeGain = 1 := rfl

@[simp] lemma initState_spectrumBuffer : initState.spectrumBuffer = [] := rfl

/-- The frequency axis of the small configuration: nine bins, 100 Hz apart. -/
@[simp] lemma rfftfreqs_smallCfg :
    rfftfreqs smallCfg = [0, 100, 200, 300, 400, 500, 600, 700, 800] := by
  norm_num [rfftfreqs, List.range_succ]

/-! ### General lemmas about the helper operations -/

lemma sum_zipWith_maxsub_nonneg (a b : List ℚ) :
    0 ≤ (List.zipWith (fun m p => max (m - p) 0) a b).sum := by
  induction a generalizing b with
  | nil => simp
  | cons x xs ih =>
    cases b with
    | nil => simp
    | cons y ys =>
      simpa using add_nonneg (le_max_right (x - y) 0) (ih ys)

lemma spectral_flux_nonneg (p : Option (List ℚ)) (m : List ℚ) :
    0 ≤ spectral_flux p m := by
  cases p with
  | none => simp [spectral_flux]
  | some prev =>
    by_cases h : prev.length = m.length <;>
      simp [spectral_flux, h, sum_zipWith_maxsub_nonneg]

lemma get_band_energy_nonneg {mag : List ℚ} (freqs : List ℚ) (r : ℚ × ℚ)
    (h : ∀ x ∈ mag, 0 ≤ x) : 0 ≤ get_band_energy mag freqs r := by
  apply List.sum_nonneg
  intro x hx
  simp only [get_band_energy, List.mem_map, List.mem_filter] at hx
  obtain ⟨⟨f, v⟩, ⟨hz, _⟩, rfl⟩ := hx
  exact h v (List.of_mem_zip hz).2

lemma listMean_nonneg {xs : List ℚ} (h : ∀ x ∈ xs, 0 ≤ x) : 0 ≤ listMean xs :=
  div_nonneg (List.sum_nonneg h) (Nat.cast_nonneg _)

lemma listMean_mem_Icc {xs : List ℚ} {lo hi : ℚ} (hne : xs ≠ [])
    (h : ∀ x ∈ xs, lo ≤ x ∧ x ≤ hi) :
    lo ≤ listMean xs ∧ listMean xs ≤ hi := by
  have hlen : 0 < (xs.length : ℚ) := by
    exact_mod_cast List.length_pos.mpr hne
  have hsum_le : xs.sum ≤ xs.length • hi :=
    List.sum_le_card_nsmul xs hi (fun x hx => (h x hx).2)
  have hle_sum : xs.length • lo ≤ xs.sum :=
    List.card_nsmul_le_sum xs lo (fun x hx => (h x hx).1)
  rw [nsmul_eq_mul] at hsum_le hle_sum
  constructor
  · rw [listMean, le_div_iff₀ hlen]
    linarith
  · rw [listMean, div_le_iff₀ hlen]
    linarith

lemma npClip_mem {lo hi : ℚ} (x : ℚ) (hle : lo ≤ hi) :
    lo ≤ npClip x lo hi ∧ npClip x lo hi ≤ hi :=
  ⟨le_min (le_max_right x lo) hle, min_le_right _ _⟩

lemma dequeAppend_subset {α : Type} {n : ℕ} {xs : List α} {x y : α}
    (h : y ∈ dequeAppend n xs x) : y ∈ xs ∨ y = x := by
  have : y ∈ xs ++ [x] := by
    simp only [dequeAppend] at h
    split at h
    · exact List.mem_of_mem_drop h
    · exact h
  simpa using this

/-! ### Field-preservation lemmas for the pipeline stages -/

lemma detect_onset_preserves (cfg : Cfg) (st : AnalyzerState) (s : List ℚ)
    (b t : ℚ) :
    (detect_onset cfg st s b t).2.currentBpm = st.currentBpm ∧
    (detect_onset cfg st s b t).2.bpmHistory = st.bpmHistory ∧
    (detect_onset cfg st s b t).2.autocorrFrameCount = st.autocorrFrameCount ∧
    (detect_onset cfg st s b t).2.prevMagnitude = st.prevMagnitude ∧
    (detect_onset cfg st s b t).2.prevSamples = st.prevSamples ∧
    (detect_onset cfg st s b t).2.beatTimes = st.beatTimes := by
  simp only [detect_onset]
  split <;> [skip; split <;> [split; skip]] <;> simp

lemma onsetStep_preserves (cfg : Cfg) (st : AnalyzerState) (d : ChunkData) :
    (onsetStep cfg st d).2.currentBpm = st.currentBpm ∧
    (onsetStep cfg st d).2.bpmHistory = st.bpmHistory ∧
    (onsetStep cfg st d).2.autocorrFrameCount = st.autocorrFrameCount ∧
    (onsetStep cfg st d).2.prevMagnitude = some d.magnitude ∧
    (onsetStep cfg st d).2.prevSamples = some (paddedSamples cfg d) ∧
    (onsetStep cfg st d).2.beatTimes = st.beatTimes := by
  have h := detect_onset_preserves cfg
    { st with prevMagnitude := some d.magnitude,
              prevSamples := some (paddedSamples cfg d) }
    ((paddedSamples cfg d).take cfg.hopSize) (bassEnergyOf cfg d) d.now
  simpa [onsetStep] using h

lemma updateLevels_preserves (cfg : Cfg) (st : AnalyzerState) (d : ChunkData) :
    (updateLevels cfg st d).currentBpm = st.currentBpm ∧
    (updateLevels cfg st d).bpmHistory = st.bpmHistory ∧
    (updateLevels cfg st d).autocorrFrameCount = st.autocorrFrameCount ∧
    (updateLevels cfg st d).prevMagnitude = st.prevMagnitude ∧
    (updateLevels cfg st d).prevSamples = st.prevSamples ∧
    (updateLevels cfg st d).beatTimes = st.beatTimes := by
  simp only [updateLevels]
  split <;> simp

lemma bpm_beat_update_preserves (cfg : Cfg) (st : AnalyzerState)
    (now ac : ℚ) :
    (bpm_beat_update cfg st now ac).prevMagnitude = st.prevMagnitude ∧
    (bpm_beat_update cfg st now ac).prevSamples = st.prevSamples ∧
    (bpm_beat_update cfg st now ac).audioBuffer = st.audioBuffer ∧
    (bpm_beat_update cfg st now ac).lastBeatTime = st.lastBeatTime := by
  simp only [bpm_beat_update]
  repeat' split
  all_goals simp

lemma preTryState_prev (cfg : Cfg) (st : AnalyzerState) (d : ChunkData) :
    (preTryState cfg st d).prevMagnitude = some d.magnitude ∧
    (preTryState cfg st d).prevSamples = some (paddedSamples cfg d) := by
  simp only [preTryState]
  split
  · have hb := bpm_beat_update_preserves cfg (onsetStep cfg st d).2 d.now d.autocorrBpm
    have ho := onsetStep_preserves cfg st d
    exact ⟨hb.1.trans ho.2.2.2.1, hb.2.1.trans ho.2.2.2.2.1⟩
  · exact ⟨(onsetStep_preserves cfg st d).2.2.2.1,
      (onsetStep_preserves cfg st d).2.2.2.2.1⟩

lemma tempoCandidate_bounds (cfg : Cfg) (st : AnalyzerState) (now ac : ℚ)
    (hle : cfg.minBpm ≤ cfg.maxBpm)
    (hac : ac = 0 ∨ (cfg.minBpm ≤ ac ∧ ac ≤ cfg.maxBpm)) :
    cfg.minBpm ≤ tempoCandidate cfg st now ac ∧
      tempoCandidate cfg st now ac ≤ cfg.maxBpm := by
  have he := npClip_mem (60 / listMean (filteredIntervalsAfter cfg st now)) hle
  unfold tempoCandidate
  split
  · split
    · next h0 =>
      rcases hac with rfl | hb
      · exact absurd h0 (lt_irrefl 0)
      · unfold intervalEstimateAfter
        exact ⟨by linarith [he.1, hb.1], by linarith [he.2, hb.2]⟩
    · exact he
  · exact he

lemma bpm_beat_update_inv (cfg : Cfg) (st : AnalyzerState) (now ac : ℚ)
    (hle : cfg.minBpm ≤ cfg.maxBpm)
    (hac : ac = 0 ∨ (cfg.minBpm ≤ ac ∧ ac ≤ cfg.maxBpm))
    (hhist : ∀ x ∈ st.bpmHistory, cfg.minBpm ≤ x ∧ x ≤ cfg.maxBpm) :
    (∀ x ∈ (bpm_beat_update cfg st now ac).bpmHistory,
        cfg.minBpm ≤ x ∧ x ≤ cfg.maxBpm) ∧
    ((bpm_beat_update cfg st now ac).currentBpm = st.currentBpm ∨
      (cfg.minBpm ≤ (bpm_beat_update cfg st now ac).currentBpm ∧
       (bpm_beat_update cfg st now ac).currentBpm ≤ cfg.maxBpm)) := by
  have hc := tempoCandidate_bounds cfg st now ac hle hac
  have hh : ∀ x ∈ dequeAppend cfg.bpmHistorySize st.bpmHistory
      (tempoCandidate cfg st now ac), cfg.minBpm ≤ x ∧ x ≤ cfg.maxBpm := by
    intro x hx
    rcases dequeAppend_subset hx with h | rfl
    · exact hhist x h
    · exact hc
  unfold bpm_beat_update
  dsimp only
  split
  · split
    · split
      · split
        · refine ⟨hh, Or.inr ?_⟩
          dsimp only
          split
          · next h3 =>
            exact listMean_mem_Icc (List.ne_nil_of_length_pos (by omega)) hh
          · exact hc
        · exact ⟨hhist, Or.inl rfl⟩
      · split
        · exact ⟨hhist, Or.inr (npClip_mem _ hle)⟩
        · exact ⟨hhist, Or.inl rfl⟩
    · exact ⟨hhist, Or.inl rfl⟩
  · exact ⟨hhist, Or.inl rfl⟩

/-- The returned BPM of a successful valid-chunk call is exactly the
post-call stored BPM, and the post-call BPM bookkeeping fields all come
from the pre-`try` phase. -/
lemma validStep_bpm_fields (cfg : Cfg) (st : AnalyzerState) (d : ChunkData) :
    (validStep cfg st d).2.1 = (validStep cfg st d).2.2.2.currentBpm ∧
    (validStep cfg st d).2.2.2.currentBpm = (preTryState cfg st d).currentBpm ∧
    (validStep cfg st d).2.2.2.bpmHistory = (preTryState cfg st d).bpmHistory ∧
    (validStep cfg st d).2.2.2.autocorrFrameCount
      = (preTryState cfg st d).autocorrFrameCount := by
  have h := updateLevels_preserves cfg (preTryState cfg st d) d
  unfold validStep
  dsimp only
  split
  · simp
  · simp [h.1, h.2.1, h.2.2.1]

lemma preTryState_no_beat (cfg : Cfg) (st : AnalyzerState) (d : ChunkData)
    (h : isBeatOf cfg st d = false) :
    (preTryState cfg st d).currentBpm = st.currentBpm ∧
    (preTryState cfg st d).bpmHistory = st.bpmHistory ∧
    (preTryState cfg st d).autocorrFrameCount = st.autocorrFrameCount := by
  have ho := onsetStep_preserves cfg st d
  unfold preTryState
  rw [h]
  simp only [Bool.false_eq_true, if_false]
  exact ⟨ho.1, ho.2.1, ho.2.2.1⟩

lemma length_intervalsAfter (cfg : Cfg) (st : AnalyzerState) (now : ℚ) :
    (intervalsAfter cfg st now).length = (beatTimesAfter cfg st now).length - 1 := by
  simp only [intervalsAfter, List.length_zipWith, List.length_drop]
  omega

/-- On the success path, the returned features are assembled exactly from
the band-energy, flux, and coarse-ratio formulas of lines 309–351. -/
lemma resFeatures_success (cfg : Cfg) (st : AnalyzerState) (d : ChunkData)
    (herr : d.featureErr = false) :
    (resFeatures (process_audio cfg st (.valid d))).bandEnergies
        = normalizeBandEnergies (rawBandEnergies cfg d) ∧
    (resFeatures (process_audio cfg st (.valid d))).spectralFlux = fluxOf st d ∧
    (resFeatures (process_audio cfg st (.valid d))).bass
        = (if 0 < coarseTotalEnergy cfg d then
            get_band_energy d.magnitude (rfftfreqs cfg) cfg.bassRange / coarseTotalEnergy cfg d
          else 0) ∧
    (resFeatures (process_audio cfg st (.valid d))).mid
        = (if 0 < coarseTotalEnergy cfg d then
            get_band_energy d.magnitude (rfftfreqs cfg) cfg.midRange / coarseTotalEnergy cfg d
          else 0) ∧
    (resFeatures (process_audio cfg st (.valid d))).treble
        = (if 0 < coarseTotalEnergy cfg d then
            get_band_energy d.magnitude (rfftfreqs cfg) cfg.trebleRange / coarseTotalEnergy cfg d
          else 0) := by
  unfold process_audio resFeatures validStep
  dsimp only
  rw [herr]
  simp [featuresOf]

/-! ### Concrete runs (stage lemmas), all under `smallCfg` -/

set_option maxRecDepth 8000 in
/-- A silent chunk processed from a fresh analyzer: no beat, BPM `0`,
all-zero features, state `zstate 1`; the result does not depend on the
call time `t` or the autocorrelation oracle `a`. -/
lemma run_z0 (t a : ℚ) :
    process_audio smallCfg initState (.valid (zChunk t a))
      = .ok (false, 0, zfeatures, zstate 1) := by
  norm_num [process_audio, validStep, preTryState, isBeatOf, onsetStep,
    detect_onset, paddedSamples, bassEnergyOf, get_band_energy, fluxOf,
    spectral_flux, listMean, lastN, dequeAppend, updateLevels, listMax, spectrumDataOf,
    strideTwo, zChunk, zfeatures, zstate, featuresOf, coarseTotalEnergy, rawBandEnergies,
    normalizeBandEnergies, maxBandEnergy, spectral_centroid, List.replicate]

set_option maxRecDepth 8000 in
/-- Second silent chunk: same shape, state advances to `zstate 2`. -/
lemma run_z1 (t a : ℚ) :
    process_audio smallCfg (zstate 1) (.valid (zChunk t a))
      = .ok (false, 0, zfeatures, zstate 2) := by
  norm_num [process_audio, validStep, preTryState, isBeatOf, onsetStep,
    detect_onset, paddedSamples, bassEnergyOf, get_band_energy, fluxOf,
    spectral_flux, listMean, lastN, dequeAppend, updateLevels, listMax, spectrumDataOf,
    strideTwo, zChunk, zfeatures, zstate, featuresOf, coarseTotalEnergy, rawBandEnergies,
    normalizeBandEnergies, maxBandEnergy, spectral_centroid, List.replicate]

set_option maxRecDepth 8000 in
/-- Third silent chunk. -/
lemma run_z2 (t a : ℚ) :
    process_audio smallCfg (zstate 2) (.valid (zChunk t a))
      = .ok (false, 0, zfeatures, zstate 3) := by
  norm_num [process_audio, validStep, preTryState, isBeatOf, onsetStep,
    detect_onset, paddedSamples, bassEnergyOf, get_band_energy, fluxOf,
    spectral_flux, listMean, lastN, dequeAppend, updateLevels, listMax, spectrumDataOf,
    strideTwo, zChunk, zfeatures, zstate, featuresOf, coarseTotalEnergy, rawBandEnergies,
    normalizeBandEnergies, maxBandEnergy, spectral_centroid, List.replicate]

set_option maxRecDepth 8000 in
/-- Fourth silent chunk. -/
lemma run_z3 (t a : ℚ) :
    process_audio smallCfg (zstate 3) (.valid (zChunk t a))
      = .ok (false, 0, zfeatures, zstate 4) := by
  norm_num [process_audio, validStep, preTryState, isBeatOf, onsetStep,
    detect_onset, paddedSamples, bassEnergyOf, get_band_energy, fluxOf,
    spectral_flux, listMean, lastN, dequeAppend, updateLevels, listMax, spectrumDataOf,
    strideTwo, zChunk, zfeatures, zstate, featuresOf, coarseTotalEnergy, rawBandEnergies,
    normalizeBandEnergies, maxBandEnergy, spectral_centroid, List.replicate]

set_option maxRecDepth 8000 in
/-- Fifth silent chunk. -/
lemma run_z4 (t a : ℚ) :
    process_audio smallCfg (zstate 4) (.valid (zChunk t a))
      = .ok (false, 0, zfeatures, zstate 5) := by
  norm_num [process_audio, validStep, preTryState, isBeatOf, onsetStep,
    detect_onset, paddedSamples, bassEnergyOf, get_band_energy, fluxOf,
    spectral_flux, listMean, lastN, dequeAppend, updateLevels, listMax, spectrumDataOf,
    strideTwo, zChunk, zfeatures, zstate, featuresOf, coarseTotalEnergy, rawBandEnergies,
    normalizeBandEnergies, maxBandEnergy, spectral_centroid, List.replicate]

set_option maxRecDepth 8000 in
/-- The all-ones chunk at `t = 100` processed from `zstate 1` fires a
flux-based beat (flux `9` exceeds half the mean magnitude `1/2`, bass
energy `2 > 0.01`) and leads to state `stB`. -/
lemma run_ones :
    resBeat (process_audio smallCfg (zstate 1) (.valid (onesChunk 100))) = true ∧
    resState (zstate 1) (process_audio smallCfg (zstate 1) (.valid (onesChunk 100))) = stB := by
  norm_num [resBeat, resState, process_audio, validStep, preTryState, isBeatOf, onsetStep,
    detect_onset, paddedSamples, bassEnergyOf, get_band_energy, fluxOf,
    spectral_flux, listMean, lastN, dequeAppend, updateLevels, listMax, spectrumDataOf,
    strideTwo, onesChunk, zstate, stB, bpm_beat_update, beatTimesAfter, intervalsAfter,
    filteredIntervalsAfter, List.replicate]

set_option maxRecDepth 8000 in
/-- The all-twos chunk at `t = 100.1` processed from `stB` fires a second
flux-based beat only `0.1 s < 0.25 s` after the beat of `stB`. -/
lemma run_twosc2 :
    resBeat (process_audio smallCfg stB (.valid (twosChunk (100 + 1/10) false))) = true ∧
    resState stB (process_audio smallCfg stB (.valid (twosChunk (100 + 1/10) false))) = stC2 := by
  norm_num [resBeat, resState, process_audio, validStep, preTryState, isBeatOf, onsetStep,
    detect_onset, paddedSamples, bassEnergyOf, get_band_energy, fluxOf,
    spectral_flux, listMean, lastN, dequeAppend, updateLevels, listMax, spectrumDataOf,
    strideTwo, twosChunk, stB, stC2, bpm_beat_update, beatTimesAfter, intervalsAfter,
    filteredIntervalsAfter, listMedian, List.insertionSort, List.orderedInsert,
    List.replicate]

set_option maxRecDepth 8000 in
/-- The all-twos chunk at `t = 101` with failing feature assembly, processed
from `stB`: the beat branch runs (two beats, interval `1 s`, estimate `60`),
then the error path returns `is_beat = false`, the default bundle, and the
BPM `60` just computed by this same call. -/
lemma run_twosc9 :
    resBeat (process_audio smallCfg stB (.valid (twosChunk 101 true))) = false ∧
    resBpm stB (process_audio smallCfg stB (.valid (twosChunk 101 true))) = 60 ∧
    resFeatures (process_audio smallCfg stB (.valid (twosChunk 101 true))) = default_features ∧
    (resState stB (process_audio smallCfg stB (.valid (twosChunk 101 true)))).bpmHistory = [60] ∧
    (resState stB (process_audio smallCfg stB (.valid (twosChunk 101 true)))).beatTimes = [100, 101] := by
  norm_num [resBeat, resState, resBpm, resFeatures, process_audio, validStep, preTryState,
    isBeatOf, onsetStep, detect_onset, paddedSamples, bassEnergyOf, get_band_energy, fluxOf,
    spectral_flux, listMean, lastN, dequeAppend, updateLevels, listMax, spectrumDataOf,
    strideTwo, twosChunk, stB, bpm_beat_update, beatTimesAfter, intervalsAfter,
    filteredIntervalsAfter, intervalEstimateAfter, tempoCandidate, nextAutocorrCount,
    npClip, List.replicate]

lemma rawBandEnergies_nonneg (cfg : Cfg) (d : ChunkData)
    (hmag : ∀ x ∈ d.magnitude, 0 ≤ x) :
    0 ≤ (rawBandEnergies cfg d).subBass ∧ 0 ≤ (rawBandEnergies cfg d).bass ∧
    0 ≤ (rawBandEnergies cfg d).lowMid ∧ 0 ≤ (rawBandEnergies cfg d).mid ∧
    0 ≤ (rawBandEnergies cfg d).highMid ∧ 0 ≤ (rawBandEnergies cfg d).treble ∧
    0 ≤ (rawBandEnergies cfg d).highTreble := by
  unfold rawBandEnergies
  dsimp only
  exact ⟨get_band_energy_nonneg _ _ hmag, get_band_energy_nonneg _ _ hmag,
    get_band_energy_nonneg _ _ hmag, get_band_energy_nonneg _ _ hmag,
    get_band_energy_nonneg _ _ hmag, get_band_energy_nonneg _ _ hmag,
    get_band_energy_nonneg _ _ hmag⟩

lemma normalizeBandEnergies_mem (raw : BandEnergies)
    (h : 0 ≤ raw.subBass ∧ 0 ≤ raw.bass ∧ 0 ≤ raw.lowMid ∧ 0 ≤ raw.mid ∧
      0 ≤ raw.highMid ∧ 0 ≤ raw.treble ∧ 0 ≤ raw.highTreble) :
    (normalizeBandEnergies raw).subBass ∈ Set.Icc (0:ℚ) 1 ∧
    (normalizeBandEnergies raw).bass ∈ Set.Icc (0:ℚ) 1 ∧
    (normalizeBandEnergies raw).lowMid ∈ Set.Icc (0:ℚ) 1 ∧
    (normalizeBandEnergies raw).mid ∈ Set.Icc (0:ℚ) 1 ∧
    (normalizeBandEnergies raw).highMid ∈ Set.Icc (0:ℚ) 1 ∧
    (normalizeBandEnergies raw).treble ∈ Set.Icc (0:ℚ) 1 ∧
    (normalizeBandEnergies raw).highTreble ∈ Set.Icc (0:ℚ) 1 := by
  obtain ⟨h1, h2, h3, h4, h5, h6, h7⟩ := h
  unfold normalizeBandEnergies maxBandEnergy
  dsimp only
  split
  · next hm =>
    constructor
    · exact ⟨div_nonneg h1 (le_of_lt hm), (div_le_one hm).mpr (le_max_left _ _)⟩
    constructor
    · exact ⟨div_nonneg h2 (le_of_lt hm), (div_le_one hm).mpr
        (le_trans (le_max_left _ _) (le_max_right _ _))⟩
    constructor
    · exact ⟨div_nonneg h3 (le_of_lt hm), (div_le_one hm).mpr
        (le_trans (le_trans (le_max_left _ _) (le_max_right _ _)) (le_max_right _ _))⟩
    constructor
    · exact ⟨div_nonneg h4 (le_of_lt hm), (div_le_one hm).mpr
        (le_trans (le_trans (le_trans (le_max_left _ _) (le_max_right _ _))
          (le_max_right _ _)) (le_max_right _ _))⟩
    constructor
    · exact ⟨div_nonneg h5 (le_of_lt hm), (div_le_one hm).mpr
        (le_trans (le_trans (le_trans (le_trans (le_max_left _ _) (le_max_right _ _))
          (le_max_right _ _)) (le_max_right _ _)) (le_max_right _ _))⟩
    constructor
    · exact ⟨div_nonneg h6 (le_of_lt hm), (div_le_one hm).mpr
        (le_trans (le_trans (le_trans (le_trans (le_trans (le_max_left _ _)
          (le_max_right _ _)) (le_max_right _ _)) (le_max_right _ _))
          (le_max_right _ _)) (le_max_right _ _))⟩
    · exact ⟨div_nonneg h7 (le_of_lt hm), (div_le_one hm).mpr
        (le_trans (le_trans (le_trans (le_trans (le_trans (le_max_right _ _)
          (le_max_right _ _)) (le_max_right _ _)) (le_max_right _ _))
          (le_max_right _ _)) (le_max_right _ _))⟩
  · simp

/-! ### Claim theorems -/

/-- C1 (amended): for every successfully processed chunk, the published
`band_energies` mapping equals the seven raw band energies normalized by
the maximum band energy of the *current* chunk, and each published value
lies in `[0, 1]`.  (The spec's per-band running maximum with 0.9995 decay
does not exist in the code; see the counterexample.) -/
theorem c1_thm (cfg : Cfg) (st : AnalyzerState) (d : ChunkData)
    (hmag : ∀ x ∈ d.magnitude, 0 ≤ x) (herr : d.featureErr = false) :
    (resFeatures (process_audio cfg st (.valid d))).bandEnergies
        = normalizeBandEnergies (rawBandEnergies cfg d) ∧
    (resFeatures (process_audio cfg st (.valid d))).bandEnergies.subBass ∈ Set.Icc (0:ℚ) 1 ∧
    (resFeatures (process_audio cfg st (.valid d))).bandEnergies.bass ∈ Set.Icc (0:ℚ) 1 ∧
    (resFeatures (process_audio cfg st (.valid d))).bandEnergies.lowMid ∈ Set.Icc (0:ℚ) 1 ∧
    (resFeatures (process_audio cfg st (.valid d))).bandEnergies.mid ∈ Set.Icc (0:ℚ) 1 ∧
    (resFeatures (process_audio cfg st (.valid d))).bandEnergies.highMid ∈ Set.Icc (0:ℚ) 1 ∧
    (resFeatures (process_audio cfg st (.valid d))).bandEnergies.treble ∈ Set.Icc (0:ℚ) 1 ∧
    (resFeatures (process_audio cfg st (.valid d))).bandEnergies.highTreble ∈ Set.Icc (0:ℚ) 1 := by
  have h := (resFeatures_success cfg st d herr).1
  rw [h]
  exact ⟨rfl, normalizeBandEnergies_mem _ (rawBandEnergies_nonneg cfg d hmag)⟩

/-- C1 witness: the amended theorem instantiated on a concrete all-ones
chunk under the small configuration. -/
theorem c1_witness :
    (resFeatures (process_audio smallCfg initState (.valid (onesChunk 0)))).bandEnergies
        = normalizeBandEnergies (rawBandEnergies smallCfg (onesChunk 0)) ∧
    (resFeatures (process_audio smallCfg initState (.valid (onesChunk 0)))).bandEnergies.subBass ∈ Set.Icc (0:ℚ) 1 ∧
    (resFeatures (process_audio smallCfg initState (.valid (onesChunk 0)))).bandEnergies.bass ∈ Set.Icc (0:ℚ) 1 ∧
    (resFeatures (process_audio smallCfg initState (.valid (onesChunk 0)))).bandEnergies.lowMid ∈ Set.Icc (0:ℚ) 1 ∧
    (resFeatures (process_audio smallCfg initState (.valid (onesChunk 0)))).bandEnergies.mid ∈ Set.Icc (0:ℚ) 1 ∧
    (resFeatures (process_audio smallCfg initState (.valid (onesChunk 0)))).bandEnergies.highMid ∈ Set.Icc (0:ℚ) 1 ∧
    (resFeatures (process_audio smallCfg initState (.valid (onesChunk 0)))).bandEnergies.treble ∈ Set.Icc (0:ℚ) 1 ∧
    (resFeatures (process_audio smallCfg initState (.valid (onesChunk 0)))).bandEnergies.highTreble ∈ Set.Icc (0:ℚ) 1 :=
  c1_thm smallCfg initState (onesChunk 0)
    (by simp [onesChunk, List.mem_replicate]) rfl

/-- C1 counterexample: on the first processed chunk with bass band energy
`2` and mid band energy `1`, the code publishes `mid = 1/2` (normalized by
the chunk's maximum band energy), while the spec's rule — each band
normalized by its own running maximum — publishes `mid = 1`.  The claim
that the published mapping is normalized per-band against a decayed
running maximum is therefore false on the code. -/
theorem c1_cex :
    (resFeatures (process_audio smallCfg initState (.valid c1chunk))).bandEnergies.mid = 1/2 ∧
    (specBandNorm (9995/10000) specInitMaxes (rawBandEnergies smallCfg c1chunk)).mid = 1 ∧
    ((1:ℚ)/2) ≠ 1 := by
  refine ⟨?_, ?_, by norm_num⟩
  · rw [(resFeatures_success smallCfg initState c1chunk rfl).1]
    norm_num [normalizeBandEnergies, rawBandEnergies, maxBandEnergy, get_band_energy, c1chunk]
  · norm_num [specBandNorm, specBandMaxUpdate, specRunningMax, specInitMaxes,
      rawBandEnergies, get_band_energy, c1chunk]

/-- C3 (amended): `reset()` clears the beat-timestamp history, the BPM
history and the spectrum-display history, and restores the scalars (BPM 0,
last-beat-time `None`, RMS 0, peak 0, gain 1.0) — but it leaves the
energy-sample history (`audio_buffer`), the previous spectrum, the
previous samples, and the autocorrelation frame counter unchanged; a
second `reset()` leaves the state unchanged (idempotent). -/
theorem c3_thm (st : AnalyzerState) :
    (reset st).beatTimes = [] ∧ (reset st).currentBpm = 0 ∧
    (reset st).lastBeatTime = none ∧ (reset st).bpmHistory = [] ∧
    (reset st).peakLevel = 0 ∧ (reset st).rmsLevel = 0 ∧
    (reset st).volumeGain = 1 ∧ (reset st).spectrumBuffer = [] ∧
    (reset st).audioBuffer = st.audioBuffer ∧
    (reset st).prevMagnitude = st.prevMagnitude ∧
    (reset st).prevSamples = st.prevSamples ∧
    (reset st).autocorrFrameCount = st.autocorrFrameCount ∧
    reset (reset st) = reset st := by
  simp [reset]

/-- C3 counterexample: resetting a concrete mid-stream state does not
empty the energy-sample history, the previous spectrum, or the previous
samples, contradicting the claim that all rolling state is emptied. -/
theorem c3_cex :
    ¬ ((reset c3state).audioBuffer = [] ∧ (reset c3state).prevMagnitude = none ∧
        (reset c3state).prevSamples = none) := by
  simp [reset, c3state]

/-- C7: `process_audio` on a `None` or empty chunk returns
`(False, current_bpm, default_features)` without raising and without any
state mutation, while a malformed (non-convertible) chunk raises
`ValueError` instead of producing a default result. -/
theorem c7_thm (cfg : Cfg) (st : AnalyzerState) :
    process_audio cfg st .null = .ok (false, st.currentBpm, default_features, st) ∧
    process_audio cfg st .empty = .ok (false, st.currentBpm, default_features, st) ∧
    process_audio cfg st .malformed = .error "Invalid audio samples" :=
  ⟨rfl, rfl, rfl⟩

/-- C8: for every successfully processed chunk the reported spectral flux
equals the sum over bins of the positive part of the magnitude increase
versus the previous chunk's spectrum; it is always `≥ 0`, and it equals `0`
on the very first processed chunk (no previous spectrum) or whenever the
spectrum length changed. -/
theorem c8_thm (cfg : Cfg) (st : AnalyzerState) (d : ChunkData)
    (herr : d.featureErr = false) :
    (resFeatures (process_audio cfg st (.valid d))).spectralFlux
        = spectral_flux st.prevMagnitude d.magnitude ∧
    0 ≤ (resFeatures (process_audio cfg st (.valid d))).spectralFlux ∧
    (st.prevMagnitude = none →
      (resFeatures (process_audio cfg st (.valid d))).spectralFlux = 0) ∧
    (∀ prev, st.prevMagnitude = some prev → prev.length ≠ d.magnitude.length →
      (resFeatures (process_audio cfg st (.valid d))).spectralFlux = 0) := by
  have h := (resFeatures_success cfg st d herr).2.1
  rw [h]
  refine ⟨rfl, spectral_flux_nonneg _ _, ?_, ?_⟩
  · intro hn
    simp [fluxOf, hn, spectral_flux]
  · intro prev hp hne
    simp [fluxOf, hp, spectral_flux, hne]

/-- C8 witness: the theorem instantiated on an all-ones chunk processed
after one silent chunk under the small configuration. -/
theorem c8_witness :
    (resFeatures (process_audio smallCfg (zstate 1) (.valid (onesChunk 0)))).spectralFlux
        = spectral_flux (zstate 1).prevMagnitude (onesChunk 0).magnitude ∧
    0 ≤ (resFeatures (process_audio smallCfg (zstate 1) (.valid (onesChunk 0)))).spectralFlux ∧
    ((zstate 1).prevMagnitude = none →
      (resFeatures (process_audio smallCfg (zstate 1) (.valid (onesChunk 0)))).spectralFlux = 0) ∧
    (∀ prev, (zstate 1).prevMagnitude = some prev → prev.length ≠ (onesChunk 0).magnitude.length →
      (resFeatures (process_audio smallCfg (zstate 1) (.valid (onesChunk 0)))).spectralFlux = 0) :=
  c8_thm smallCfg (zstate 1) (onesChunk 0) rfl

/-- C4: for every successfully processed valid chunk (with the physically
guaranteed non-negative magnitude), the returned `bass + mid + treble`
ratio sum lies in `[0, 1.0001]`, and equals `0` exactly when the chunk's
total spectral energy — the `total_energy` of line 310, i.e. the summed
bass, mid and treble band energies — is `0`. -/
theorem c4_thm (cfg : Cfg) (st : AnalyzerState) (d : ChunkData)
    (hmag : ∀ x ∈ d.magnitude, 0 ≤ x) (herr : d.featureErr = false) :
    0 ≤ (resFeatures (process_audio cfg st (.valid d))).bass
        + (resFeatures (process_audio cfg st (.valid d))).mid
        + (resFeatures (process_audio cfg st (.valid d))).treble ∧
    (resFeatures (process_audio cfg st (.valid d))).bass
        + (resFeatures (process_audio cfg st (.valid d))).mid
        + (resFeatures (process_audio cfg st (.valid d))).treble ≤ 10001/10000 ∧
    ((resFeatures (process_audio cfg st (.valid d))).bass
        + (resFeatures (process_audio cfg st (.valid d))).mid
        + (resFeatures (process_audio cfg st (.valid d))).treble = 0
      ↔ coarseTotalEnergy cfg d = 0) := by
  have h := resFeatures_success cfg st d herr
  rw [h.2.2.1, h.2.2.2.1, h.2.2.2.2]
  have hb := get_band_energy_nonneg (rfftfreqs cfg) cfg.bassRange hmag
  have hm := get_band_energy_nonneg (rfftfreqs cfg) cfg.midRange hmag
  have ht := get_band_energy_nonneg (rfftfreqs cfg) cfg.trebleRange hmag
  have htot : coarseTotalEnergy cfg d
      = get_band_energy d.magnitude (rfftfreqs cfg) cfg.bassRange
        + get_band_energy d.magnitude (rfftfreqs cfg) cfg.midRange
        + get_band_energy d.magnitude (rfftfreqs cfg) cfg.trebleRange := rfl
  by_cases hpos : 0 < coarseTotalEnergy cfg d
  · rw [if_pos hpos, if_pos hpos, if_pos hpos]
    have hne : coarseTotalEnergy cfg d ≠ 0 := ne_of_gt hpos
    have hsum : get_band_energy d.magnitude (rfftfreqs cfg) cfg.bassRange / coarseTotalEnergy cfg d
        + get_band_energy d.magnitude (rfftfreqs cfg) cfg.midRange / coarseTotalEnergy cfg d
        + get_band_energy d.magnitude (rfftfreqs cfg) cfg.trebleRange / coarseTotalEnergy cfg d = 1 := by
      rw [div_add_div_same, div_add_div_same, ← htot, div_self hne]
    rw [hsum]
    norm_num
    exact hne
  · rw [if_neg hpos, if_neg hpos, if_neg hpos]
    have h0 : coarseTotalEnergy cfg d = 0 := by
      rw [htot]
      have := not_lt.mp hpos
      rw [htot] at this
      linarith
    norm_num [h0]

/-- C4 witness: the theorem instantiated on a concrete all-ones chunk
under the small configuration. -/
theorem c4_witness :
    0 ≤ (resFeatures (process_audio smallCfg initState (.valid (onesChunk 0)))).bass
        + (resFeatures (process_audio smallCfg initState (.valid (onesChunk 0)))).mid
        + (resFeatures (process_audio smallCfg initState (.valid (onesChunk 0)))).treble ∧
    (resFeatures (process_audio smallCfg initState (.valid (onesChunk 0)))).bass
        + (resFeatures (process_audio smallCfg initState (.valid (onesChunk 0)))).mid
        + (resFeatures (process_audio smallCfg initState (.valid (onesChunk 0)))).treble ≤ 10001/10000 ∧
    ((resFeatures (process_audio smallCfg initState (.valid (onesChunk 0)))).bass
        + (resFeatures (process_audio smallCfg initState (.valid (onesChunk 0)))).mid
        + (resFeatures (process_audio smallCfg initState (.valid (onesChunk 0)))).treble = 0
      ↔ coarseTotalEnergy smallCfg (onesChunk 0) = 0) :=
  c4_thm smallCfg initState (onesChunk 0)
    (by simp [onesChunk, List.mem_replicate]) rfl


/-- C10: a freshly constructed analyzer returns `is_beat = false` on its
very first `process_audio` call for every possible input chunk: the
energy detector cannot fire with an empty energy buffer (it requires more
than 10 buffered samples), and the flux detector cannot fire because the
flux is `0` with no prior spectrum while its threshold is non-negative. -/
theorem c10_thm (cfg : Cfg) (chunk : Chunk) (hmag : MagNonneg chunk) :
    resBeat (process_audio cfg initState chunk) = false := by
  cases chunk with
  | null => rfl
  | empty => rfl
  | malformed => rfl
  | valid d =>
    have h1 : (onsetStep cfg initState d).1 = false := by
      simp [onsetStep, detect_onset]
    have h2 : fluxOf initState d = 0 := by simp [fluxOf, spectral_flux]
    have h3 : ¬ (listMean d.magnitude * (1/2) < fluxOf initState d) := by
      rw [h2]
      exact not_lt.mpr (mul_nonneg (listMean_nonneg hmag) (by norm_num))
    have hbeat : isBeatOf cfg initState d = false := by
      rw [isBeatOf, h1, Bool.false_or, Bool.and_eq_false_iff]
      left
      simpa using h3
    show (validStep cfg initState d).1 = false
    unfold validStep
    dsimp only
    split
    · rfl
    · exact hbeat

/-- C10 witness: the theorem instantiated on a concrete all-ones chunk
under the small configuration. -/
theorem c10_witness :
    resBeat (process_audio smallCfg initState (.valid (onesChunk 0))) = false :=
  c10_thm smallCfg (.valid (onesChunk 0))
    (by simp [MagNonneg, onesChunk, List.mem_replicate])

/-- C2 (amended): the minimum beat interval is enforced only by the
energy-based detector.  Within the refractory interval (less than
`min_beat_interval` since `last_beat_time`), the energy detector cannot
fire, and any beat that does register must come from the flux path
(flux above half the mean magnitude, with bass energy above `0.01`). -/
theorem c2_thm (cfg : Cfg) (st : AnalyzerState) (d : ChunkData) (t : ℚ)
    (hl : st.lastBeatTime = some t)
    (ht : d.now - t < cfg.minBeatInterval) :
    (onsetStep cfg st d).1 = false ∧
    (resBeat (process_audio cfg st (.valid d)) = true →
      listMean d.magnitude * (1/2) < fluxOf st d ∧
        (1/100 : ℚ) < bassEnergyOf cfg d) := by
  have h1 : (onsetStep cfg st d).1 = false := by
    unfold onsetStep detect_onset
    simp [hl, ht]
  refine ⟨h1, ?_⟩
  intro hb
  have h2 : isBeatOf cfg st d = true := by
    have hb' : (validStep cfg st d).1 = true := hb
    unfold validStep at hb'
    dsimp only at hb'
    split at hb'
    · exact absurd hb' (by simp)
    · exact hb'
  rw [isBeatOf, h1, Bool.false_or, Bool.and_eq_true] at h2
  exact ⟨of_decide_eq_true h2.1, of_decide_eq_true h2.2⟩

/-- C2 witness: the amended theorem instantiated on a state whose energy
detector fired at `t = 100`, processing a chunk at `t = 100.1`. -/
theorem c2_witness :
    (onsetStep smallCfg c2wState (onesChunk (100 + 1/10))).1 = false ∧
    (resBeat (process_audio smallCfg c2wState (.valid (onesChunk (100 + 1/10)))) = true →
      listMean (onesChunk (100 + 1/10)).magnitude * (1/2)
          < fluxOf c2wState (onesChunk (100 + 1/10)) ∧
        (1/100 : ℚ) < bassEnergyOf smallCfg (onesChunk (100 + 1/10))) :=
  c2_thm smallCfg c2wState (onesChunk (100 + 1/10)) 100 rfl
    (by norm_num [onesChunk])

/-- C2 counterexample: a concrete three-call run from a fresh analyzer in
which the second and third calls both register beats (via the flux
detector) at times `100` and `100.1`, only `0.1 s < 0.25 s` apart —
so two beats do register within the refractory interval, falsifying the
claim that no two beats can register within it regardless of detector. -/
theorem c2_cex :
    resState initState (process_audio smallCfg initState (.valid (zChunk 0 0))) = zstate 1 ∧
    resBeat (process_audio smallCfg (zstate 1) (.valid (onesChunk 100))) = true ∧
    resState (zstate 1) (process_audio smallCfg (zstate 1) (.valid (onesChunk 100))) = stB ∧
    resBeat (process_audio smallCfg stB (.valid (twosChunk (100 + 1/10) false))) = true ∧
    resState stB (process_audio smallCfg stB (.valid (twosChunk (100 + 1/10) false))) = stC2 ∧
    stC2.beatTimes = [100, 1001/10] ∧
    (100 + 1/10 : ℚ) - 100 < smallCfg.minBeatInterval := by
  refine ⟨?_, run_ones.1, run_ones.2, run_twosc2.1, run_twosc2.2, rfl, by norm_num⟩
  rw [run_z0]
  rfl

/-- C9 (amended): when feature assembly raises, the call returns
`is_beat = false`, the default bundle, and the analyzer's BPM *as of the
moment of the exception* (not necessarily the pre-call BPM), and every
mutation made earlier in the same call persists: the returned state is
exactly the pre-`try` state, whose previous-spectrum and previous-samples
fields hold the failing chunk's data, and whose beat-branch updates are
kept rather than rolled back. -/
theorem c9_thm (cfg : Cfg) (st : AnalyzerState) (d : ChunkData)
    (herr : d.featureErr = true) :
    process_audio cfg st (.valid d)
      = .ok (false, (preTryState cfg st d).currentBpm, default_features,
          preTryState cfg st d) ∧
    (preTryState cfg st d).prevMagnitude = some d.magnitude ∧
    (preTryState cfg st d).prevSamples = some (paddedSamples cfg d) := by
  refine ⟨?_, (preTryState_prev cfg st d).1, (preTryState_prev cfg st d).2⟩
  unfold process_audio validStep
  dsimp only
  rw [herr]
  simp

/-- C9 witness: the amended theorem instantiated on a concrete failing
silent chunk from a fresh analyzer. -/
theorem c9_witness :
    process_audio smallCfg initState (.valid errChunk)
      = .ok (false, (preTryState smallCfg initState errChunk).currentBpm,
          default_features, preTryState smallCfg initState errChunk) ∧
    (preTryState smallCfg initState errChunk).prevMagnitude = some errChunk.magnitude ∧
    (preTryState smallCfg initState errChunk).prevSamples
      = some (paddedSamples smallCfg errChunk) :=
  c9_thm smallCfg initState errChunk rfl

/-- C9 counterexample: a concrete run in which the failing call's own beat
branch updates the published BPM from `0` to `60`; the call then returns
BPM `60` with `is_beat = false` and the default bundle, and the
BPM-history entry and beat timestamp are kept.  The claim's assertion that
such a call returns the *pre-call* BPM (`0`) is therefore false. -/
theorem c9_cex :
    resState initState (process_audio smallCfg initState (.valid (zChunk 0 0))) = zstate 1 ∧
    resBeat (process_audio smallCfg (zstate 1) (.valid (onesChunk 100))) = true ∧
    resState (zstate 1) (process_audio smallCfg (zstate 1) (.valid (onesChunk 100))) = stB ∧
    stB.currentBpm = 0 ∧
    resBeat (process_audio smallCfg stB (.valid (twosChunk 101 true))) = false ∧
    resBpm stB (process_audio smallCfg stB (.valid (twosChunk 101 true))) = 60 ∧
    resFeatures (process_audio smallCfg stB (.valid (twosChunk 101 true))) = default_features ∧
    (resState stB (process_audio smallCfg stB (.valid (twosChunk 101 true)))).bpmHistory = [60] ∧
    (resState stB (process_audio smallCfg stB (.valid (twosChunk 101 true)))).beatTimes = [100, 101] ∧
    (60 : ℚ) ≠ 0 := by
  refine ⟨?_, run_ones.1, run_ones.2, rfl, run_twosc9.1, run_twosc9.2.1,
    run_twosc9.2.2.1, run_twosc9.2.2.2.1, run_twosc9.2.2.2.2, by norm_num⟩
  rw [run_z0]
  rfl


/-- C6 (amended): the autocorrelation throttle counter is advanced only by
calls whose beat branch reaches a valid interval estimate (a fired beat
with at least two recorded beat timestamps and a nonempty filtered-interval
set); a no-beat call leaves the counter unchanged.  On such a qualifying
beat, when the incremented counter reaches the configured interval the
autocorrelation estimate is consulted — if valid (`> 0`) the candidate
pushed to the BPM history becomes `0.7 × interval-based + 0.3 ×
autocorrelation` — and the counter resets to `0`; otherwise the counter
just increments. -/
theorem c6_thm (cfg : Cfg) (st : AnalyzerState) (d : ChunkData) (now ac : ℚ)
    (h1 : 0 < (filteredIntervalsAfter cfg st now).length)
    (h2 : 0 < listMean (filteredIntervalsAfter cfg st now)) :
    (isBeatOf cfg st d = false →
      (resState st (process_audio cfg st (.valid d))).autocorrFrameCount
        = st.autocorrFrameCount) ∧
    (cfg.autocorrInterval ≤ st.autocorrFrameCount + 1 →
      (bpm_beat_update cfg st now ac).autocorrFrameCount = 0 ∧
      (0 < ac → (bpm_beat_update cfg st now ac).bpmHistory
          = dequeAppend cfg.bpmHistorySize st.bpmHistory
              ((7/10) * intervalEstimateAfter cfg st now + (3/10) * ac))) ∧
    (st.autocorrFrameCount + 1 < cfg.autocorrInterval →
      (bpm_beat_update cfg st now ac).autocorrFrameCount
        = st.autocorrFrameCount + 1) := by
  have hfl : (filteredIntervalsAfter cfg st now).length
      ≤ (intervalsAfter cfg st now).length := List.length_filter_le _ _
  have hint : 0 < (intervalsAfter cfg st now).length := lt_of_lt_of_le h1 hfl
  have hbt2 : 2 ≤ (beatTimesAfter cfg st now).length := by
    have := length_intervalsAfter cfg st now
    omega
  refine ⟨?_, ?_, ?_⟩
  · intro hb
    have hv := (validStep_bpm_fields cfg st d).2.2.2
    have hp := (preTryState_no_beat cfg st d hb).2.2
    exact hv.trans hp
  · intro hN
    constructor
    · unfold bpm_beat_update
      rw [if_pos hbt2, if_pos hint, if_pos h1, if_pos h2]
      simp [nextAutocorrCount, hN]
    · intro hacpos
      unfold bpm_beat_update
      rw [if_pos hbt2, if_pos hint, if_pos h1, if_pos h2]
      simp only [tempoCandidate, if_pos hN, if_pos hacpos]
  · intro hlt
    unfold bpm_beat_update
    rw [if_pos hbt2, if_pos hint, if_pos h1, if_pos h2]
    simp [nextAutocorrCount, not_le.mpr hlt]

/-- C6 witness: the amended theorem instantiated on a state with four
beats recorded and the counter at `4`, one qualifying beat away from the
refinement under the default interval `5`. -/
theorem c6_witness :
    ((isBeatOf smallCfg c6wState (zChunk 0 0) = false →
      (resState c6wState (process_audio smallCfg c6wState (.valid (zChunk 0 0)))).autocorrFrameCount
        = c6wState.autocorrFrameCount) ∧
    (smallCfg.autocorrInterval ≤ c6wState.autocorrFrameCount + 1 →
      (bpm_beat_update smallCfg c6wState 4 100).autocorrFrameCount = 0 ∧
      (0 < (100:ℚ) → (bpm_beat_update smallCfg c6wState 4 100).bpmHistory
          = dequeAppend smallCfg.bpmHistorySize c6wState.bpmHistory
              ((7/10) * intervalEstimateAfter smallCfg c6wState 4 + (3/10) * 100))) ∧
    (c6wState.autocorrFrameCount + 1 < smallCfg.autocorrInterval →
      (bpm_beat_update smallCfg c6wState 4 100).autocorrFrameCount
        = c6wState.autocorrFrameCount + 1)) :=
  c6_thm smallCfg c6wState (zChunk 0 0) 4 100
    (by norm_num [filteredIntervalsAfter, intervalsAfter, beatTimesAfter,
      dequeAppend, c6wState])
    (by norm_num [filteredIntervalsAfter, intervalsAfter, beatTimesAfter,
      dequeAppend, c6wState, listMean])

/-- C6 counterexample: five valid chunks processed consecutively from a
fresh analyzer during which the autocorrelation refinement never runs:
every call's entire result is identical for two very different
autocorrelation oracle values (`61` vs `151`), and the throttle counter is
still `0` after all five chunks — falsifying the claim that the
refinement runs once every 5 processed chunks. -/
theorem c6_cex :
    process_audio smallCfg initState (.valid (zChunk 0 61))
      = process_audio smallCfg initState (.valid (zChunk 0 151)) ∧
    resState initState (process_audio smallCfg initState (.valid (zChunk 0 61))) = zstate 1 ∧
    process_audio smallCfg (zstate 1) (.valid (zChunk 1 61))
      = process_audio smallCfg (zstate 1) (.valid (zChunk 1 151)) ∧
    resState (zstate 1) (process_audio smallCfg (zstate 1) (.valid (zChunk 1 61))) = zstate 2 ∧
    process_audio smallCfg (zstate 2) (.valid (zChunk 2 61))
      = process_audio smallCfg (zstate 2) (.valid (zChunk 2 151)) ∧
    resState (zstate 2) (process_audio smallCfg (zstate 2) (.valid (zChunk 2 61))) = zstate 3 ∧
    process_audio smallCfg (zstate 3) (.valid (zChunk 3 61))
      = process_audio smallCfg (zstate 3) (.valid (zChunk 3 151)) ∧
    resState (zstate 3) (process_audio smallCfg (zstate 3) (.valid (zChunk 3 61))) = zstate 4 ∧
    process_audio smallCfg (zstate 4) (.valid (zChunk 4 61))
      = process_audio smallCfg (zstate 4) (.valid (zChunk 4 151)) ∧
    resState (zstate 4) (process_audio smallCfg (zstate 4) (.valid (zChunk 4 61))) = zstate 5 ∧
    (zstate 5).autocorrFrameCount = 0 ∧ initState.autocorrFrameCount = 0 := by
  refine ⟨by rw [run_z0, run_z0], by rw [run_z0]; rfl,
    by rw [run_z1, run_z1], by rw [run_z1]; rfl,
    by rw [run_z2, run_z2], by rw [run_z2]; rfl,
    by rw [run_z3, run_z3], by rw [run_z3]; rfl,
    by rw [run_z4, run_z4], by rw [run_z4]; rfl, rfl, rfl⟩

/-- C5: assuming `min_bpm ≤ max_bpm` and the contract `_autocorrelation_bpm`
satisfies by construction (it returns `0` or a clamped value), every
`process_audio` call preserves the BPM invariant: the published BPM is
`0` or within `[min_bpm, max_bpm]` (so once any estimate exists it remains
in range, per the last conjunct), the returned BPM equals the stored one,
and on a call where no beat fires the published BPM is exactly the value
published before the call. -/
theorem c5_thm (cfg : Cfg) (st : AnalyzerState) (chunk : Chunk)
    (hle : cfg.minBpm ≤ cfg.maxBpm)
    (hinv : BpmInv cfg st) (hac : AutocorrContract cfg chunk) :
    BpmInv cfg (resState st (process_audio cfg st chunk)) ∧
    resBpm st (process_audio cfg st chunk)
      = (resState st (process_audio cfg st chunk)).currentBpm ∧
    (firedBeat cfg st chunk = false →
      (resState st (process_audio cfg st chunk)).currentBpm = st.currentBpm) ∧
    ((cfg.minBpm ≤ st.currentBpm ∧ st.currentBpm ≤ cfg.maxBpm) →
      cfg.minBpm ≤ (resState st (process_audio cfg st chunk)).currentBpm ∧
      (resState st (process_audio cfg st chunk)).currentBpm ≤ cfg.maxBpm) := by
  cases chunk with
  | null => exact ⟨hinv, rfl, fun _ => rfl, fun h => h⟩
  | empty => exact ⟨hinv, rfl, fun _ => rfl, fun h => h⟩
  | malformed => exact ⟨hinv, rfl, fun _ => rfl, fun h => h⟩
  | valid d =>
    have hv := validStep_bpm_fields cfg st d
    have hcb : (resState st (process_audio cfg st (Chunk.valid d))).currentBpm
        = (preTryState cfg st d).currentBpm := hv.2.1
    have hhb : (resState st (process_audio cfg st (Chunk.valid d))).bpmHistory
        = (preTryState cfg st d).bpmHistory := hv.2.2.1
    have hret : resBpm st (process_audio cfg st (Chunk.valid d))
        = (resState st (process_audio cfg st (Chunk.valid d))).currentBpm := hv.1
    cases hb : isBeatOf cfg st d with
    | false =>
      have hp := preTryState_no_beat cfg st d hb
      refine ⟨⟨?_, ?_⟩, hret, ?_, ?_⟩
      · rw [hhb, hp.2.1]
        exact hinv.1
      · rw [hcb, hp.1]
        exact hinv.2
      · intro _
        rw [hcb, hp.1]
      · intro h
        rw [hcb, hp.1]
        exact h
    | true =>
      have hP : preTryState cfg st d
          = bpm_beat_update cfg (onsetStep cfg st d).2 d.now d.autocorrBpm := by
        simp [preTryState, hb]
      have hO := onsetStep_preserves cfg st d
      have hac' : d.autocorrBpm = 0 ∨
          (cfg.minBpm ≤ d.autocorrBpm ∧ d.autocorrBpm ≤ cfg.maxBpm) := hac
      have hiz := bpm_beat_update_inv cfg (onsetStep cfg st d).2 d.now d.autocorrBpm
        hle hac' (by rw [hO.2.1]; exact hinv.1)
      refine ⟨⟨?_, ?_⟩, hret, ?_, ?_⟩
      · rw [hhb, hP]
        exact hiz.1
      · rw [hcb, hP]
        rcases hiz.2 with he | hbnd
        · rw [he, hO.1]
          exact hinv.2
        · exact Or.inr hbnd
      · intro hfb
        simp [firedBeat, hb] at hfb
      · intro h
        rw [hcb, hP]
        rcases hiz.2 with he | hbnd
        · rw [he, hO.1]
          exact h
        · exact hbnd

/-- C5 witness: the theorem instantiated on a fresh analyzer processing a
concrete silent chunk under the small configuration. -/
theorem c5_witness :
    BpmInv smallCfg (resState initState (process_audio smallCfg initState (.valid (zChunk 0 0)))) ∧
    resBpm initState (process_audio smallCfg initState (.valid (zChunk 0 0)))
      = (resState initState (process_audio smallCfg initState (.valid (zChunk 0 0)))).currentBpm ∧
    (firedBeat smallCfg initState (.valid (zChunk 0 0)) = false →
      (resState initState (process_audio smallCfg initState (.valid (zChunk 0 0)))).currentBpm
        = initState.currentBpm) ∧
    ((smallCfg.minBpm ≤ initState.currentBpm ∧ initState.currentBpm ≤ smallCfg.maxBpm) →
      smallCfg.minBpm ≤ (resState initState (process_audio smallCfg initState (.valid (zChunk 0 0)))).currentBpm ∧
      (resState initState (process_audio smallCfg initState (.valid (zChunk 0 0)))).currentBpm
        ≤ smallCfg.maxBpm) :=
  c5_thm smallCfg initState (.valid (zChunk 0 0)) (by norm_num)
    ⟨by simp [BpmInv], Or.inl rfl⟩ (Or.inl rfl)


end AudioViz
